import Mathlib

/-!
Verification of the DETR object-detection video notebook
(`src/object-detection-video.ipynb`).

The notebook defines four pieces of logic:
* `calculate_label_size` — a font-scale heuristic (pure float math);
* `generate_color_palette` / `get_label_color` — a seeded random palette
  over the 91 COCO class ids with a green fallback;
* `add_fps_counter` — pure drawing (external cv2 calls, not modelled);
* `process_video` — the frame loop: read, detect, filter by strict
  confidence threshold, draw, time, write, with try/except/finally cleanup.

External collaborators (the DETR model, cv2 video I/O, numpy's RNG,
wall-clock time) are modelled as explicit inputs: the detector is a
function `Frame → Except PyErr (List Detection)`, the capture is a record
with an opened flag and a list of read outcomes, per-frame elapsed time is
an oracle `ℕ → ℚ`, and numpy's seeded global RNG is a concrete
deterministic generator whose `randint(0, 255, 3)` draws three values in
`[0, 255)` (numpy's `randint` excludes its upper bound).

Real-valued math (`np.log`, `np.clip`) is embedded over `ℝ`;
scores, times and FPS values over `ℚ`.
-/

namespace DetrVideo

/-! ### Label sizing heuristic (`calculate_label_size`) -/

/-- Embedding of `np.clip(x, lo, hi)`: equivalent to `min(max(x, lo), hi)`
(numpy applies the upper bound last). -/
def npClip (x lo hi : ℝ) : ℝ := min (max x lo) hi

/-- Embedding of `calculate_label_size(box_width, box_height, frame_width,
frame_height, min_scale=0.4, max_scale=1.2)` from the notebook:
`ratio = (box_width*box_height) / (frame_width*frame_height)`;
`font_scale = min_scale + (np.log(1 + ratio*100) / 5) * (max_scale - min_scale)`;
returns `np.clip(font_scale, min_scale, max_scale)`. -/
noncomputable def calculate_label_size (box_width box_height frame_width frame_height
    min_scale max_scale : ℝ) : ℝ :=
  let box_size_ratio := (box_width * box_height) / (frame_width * frame_height)
  let font_scale := min_scale + (Real.log (1 + box_size_ratio * 100) / 5) * (max_scale - min_scale)
  npClip font_scale min_scale max_scale

/-- The `font_scale` value computed inside `calculate_label_size`
before `np.clip` is applied. -/
noncomputable def preClipFontScale (box_width box_height frame_width frame_height
    min_scale max_scale : ℝ) : ℝ :=
  min_scale + (Real.log (1 + (box_width * box_height) / (frame_width * frame_height) * 100) / 5)
    * (max_scale - min_scale)

/-! ### Palette generator (`generate_color_palette`, `get_label_color`)

numpy's global Mersenne-Twister RNG is an external library; it is modelled
here by a concrete deterministic generator with the two properties the code
relies on: `np.random.seed(42)` replaces the global state by a pure
function of the seed, and `np.random.randint(0, 255, 3)` draws three
integers from the half-open range `[0, 255)` (numpy's `randint` high bound
is exclusive), advancing the state. -/

/-- One step of the modelled numpy global RNG state. -/
def npRngNext (s : ℕ) : ℕ := (s * 1103515245 + 12345) % 2147483648

/-- Models `np.random.seed(seed)`: the global RNG state becomes a pure
function of the seed alone. -/
def npSeed (seed : ℕ) : ℕ := seed

/-- Models one scalar draw of `np.random.randint(0, 255)`: a value in
`[0, 255)` (the high bound 255 is exclusive in numpy), plus the advanced
RNG state. -/
def npRandint255 (s : ℕ) : ℕ × ℕ :=
  let s' := npRngNext s
  (s' % 255, s')

/-- Models `tuple(np.random.randint(0, 255, 3).tolist())`: three successive
draws forming an RGB triple. -/
def npRandintTriple (s : ℕ) : (ℕ × ℕ × ℕ) × ℕ :=
  let r := npRandint255 s
  let g := npRandint255 r.2
  let b := npRandint255 g.2
  ((r.1, g.1, b.1), b.2)

/-- The dict comprehension
`{label: tuple(np.random.randint(0, 255, 3).tolist()) for label in range(num_classes)}`,
evaluated for labels `start, start+1, ...` with `k` labels remaining,
threading the RNG state. -/
def paletteGo : ℕ → ℕ → ℕ → List (ℕ × (ℕ × ℕ × ℕ))
  | 0, _, _ => []
  | k + 1, start, s =>
    let cs := npRandintTriple s
    (start, cs.1) :: paletteGo k (start + 1) cs.2

/-- Embedding of `generate_color_palette(num_classes)` from the notebook. It first calls
`np.random.seed(42)` — discarding whatever global RNG state `rngState` the
process had — and then draws one RGB triple per label in
`range(num_classes)`. -/
def generate_color_palette (num_classes : ℕ) (rngState : ℕ) : List (ℕ × (ℕ × ℕ × ℕ)) :=
  let _ := rngState
  let s := npSeed 42
  paletteGo num_classes 0 s

/-- The module-level `colors = generate_color_palette(num_classes=91)`
(COCO has 91 classes by default). The initial RNG state argument is
irrelevant because the function reseeds; `0` is used here. -/
def colors : List (ℕ × (ℕ × ℕ × ℕ)) := generate_color_palette 91 0

/-- Embedding of `get_label_color(label)`: `colors.get(label, (0, 255, 0))` —
the mapped color when `label` is a key, else the default green. -/
def get_label_color (label : ℕ) : ℕ × ℕ × ℕ :=
  (colors.lookup label).getD (0, 255, 0)

/-! ### The frame loop (`process_video`) -/

/-- Python exceptions that can cross the loop. -/
inductive PyErr
  | valueError (msg : String)
  | zeroDivisionError
  | other (msg : String)
deriving DecidableEq

/-- The message text used when the except clause prints the error. -/
def pyErrMsg : PyErr → String
  | PyErr.valueError m => m
  | PyErr.zeroDivisionError => "division by zero"
  | PyErr.other m => m

/-- Frames are opaque buffers; only their identity matters here, the pixel
mutations are cv2 calls. -/
abbrev Frame := ℕ

/-- One post-processed detection: parallel entries of `results["scores"]`,
`results["labels"]`, `results["boxes"]` bundled as a record. -/
structure Detection where
  label : ℕ
  score : ℚ
  box : ℚ × ℚ × ℚ × ℚ
deriving DecidableEq

/-- A frame as handed to `out.write`: the source frame with the set of
detections that were drawn onto it and the FPS value stamped by
`add_fps_counter`. -/
structure RenderedFrame where
  base : Frame
  drawn : List Detection
  fpsShown : ℚ
deriving DecidableEq

/-- Outcome of one `cap.read()` call: `eof` is `ret == False`
(end of stream or decode failure — the code treats both as `break`). -/
inductive ReadResult
  | eof
  | frame (f : Frame)
deriving DecidableEq

/-- The opened `cv2.VideoCapture`: its `isOpened` flag, the properties the
code queries, and the successive outcomes of `cap.read()`. An exhausted
list behaves like `ret == False`. -/
structure VideoCapture where
  isOpened : Bool
  frameWidth : ℕ
  frameHeight : ℕ
  nominalFps : ℕ
  totalFrames : ℕ
  reads : List ReadResult

/-- The `cv2.VideoWriter`: its constructor never raises; whether the sink
was actually created is only observable through `isOpened()`, which the
notebook never calls. -/
structure VideoWriter where
  openedOk : Bool

/-- Resource state touched by the `finally` block. -/
structure Resources where
  pbarClosed : Bool
  capReleased : Bool
  outReleased : Bool
  windowsDestroyed : Bool
  cudaCacheEmptied : Bool
  modelOnCpu : Bool
deriving DecidableEq

/-- Resource state right after `cap` and `out` are constructed:
nothing released yet. -/
def initResources : Resources := ⟨false, false, false, false, false, false⟩

/-- Resource state after the `finally` block: `pbar.close()`,
`cap.release()`, `out.release()`, `cv2.destroyAllWindows()`,
`torch.cuda.empty_cache()`, `gc.collect()`, `model.to('cpu')`. -/
def finalResources : Resources := ⟨true, true, true, true, true, true⟩

/-- One iteration body of the loop, after a successful read of `f`:
run the detector, keep the detections with `score > threshold`
(`keep = scores > threshold`, then `boxes[keep]`, `labels[keep]`,
`scores[keep]`), draw exactly the kept ones, then compute
`fps = 1 / (end_time - start_time)` — in Python a zero elapsed time raises
`ZeroDivisionError`. On success returns the rendered frame and its fps. -/
def processFrame (detect : Frame → Except PyErr (List Detection)) (threshold : ℚ)
    (elapsed : ℚ) (f : Frame) : Except PyErr (RenderedFrame × ℚ) :=
  match detect f with
  | Except.error e => Except.error e
  | Except.ok results =>
    let kept := results.filter fun d => decide (threshold < d.score)
    if elapsed = 0 then Except.error PyErr.zeroDivisionError
    else
      let fps := 1 / elapsed
      Except.ok ({ base := f, drawn := kept, fpsShown := fps }, fps)

/-- The `while cap.isOpened()` loop over the remaining read outcomes.
Arguments: remaining reads, `frame_count`, `total_fps`, frames written so
far (most recent first). Returns the loop's outcome (`ok` on `break`,
`error` when an exception escapes an iteration), the frames written in
order, and the final `frame_count` and `total_fps`. -/
def frameLoop (detect : Frame → Except PyErr (List Detection)) (threshold : ℚ)
    (elapsed : ℕ → ℚ) :
    List ReadResult → ℕ → ℚ → List RenderedFrame →
    Except PyErr Unit × List RenderedFrame × ℕ × ℚ
  | [], frameCount, totalFps, written => (Except.ok (), written.reverse, frameCount, totalFps)
  | ReadResult.eof :: _, frameCount, totalFps, written =>
    (Except.ok (), written.reverse, frameCount, totalFps)
  | ReadResult.frame f :: rest, frameCount, totalFps, written =>
    match processFrame detect threshold (elapsed frameCount) f with
    | Except.error e => (Except.error e, written.reverse, frameCount, totalFps)
    | Except.ok (rf, fps) =>
      frameLoop detect threshold elapsed rest (frameCount + 1) (totalFps + fps) (rf :: written)

/-- Everything observable about one `process_video` call. -/
structure PVResult where
  result : Except PyErr Unit
  written : List RenderedFrame
  frameCount : ℕ
  totalFps : ℚ
  resources : Resources
  prints : List String

/-- Embedding of `process_video(video_path, output_path, threshold=0.9)` from
the notebook. The already-constructed capture stands for
`cv2.VideoCapture(video_path)`; if `not cap.isOpened()`, the code raises
`ValueError("Error opening video file")` *before* the `try`, so no cleanup
runs. Otherwise `cv2.VideoWriter` is constructed (its success flag is
never inspected), the frame loop runs inside `try`, the `except` clause
prints the error and re-raises, the `finally` block always releases every
resource, and the completion message prints only when no exception
escaped. -/
def process_video (detect : Frame → Except PyErr (List Detection)) (device : String)
    (cap : VideoCapture) (out : VideoWriter) (elapsed : ℕ → ℚ) (threshold : ℚ) : PVResult :=
  let _ := out
  let prints0 := ["Using device: " ++ device]
  if cap.isOpened = false then
    { result := Except.error (PyErr.valueError "Error opening video file")
      written := []
      frameCount := 0
      totalFps := 0
      resources := initResources
      prints := prints0 }
  else
    match frameLoop detect threshold elapsed cap.reads 0 0 [] with
    | (Except.ok _, written, n, tf) =>
      { result := Except.ok ()
        written := written
        frameCount := n
        totalFps := tf
        resources := finalResources
        prints := prints0 ++ ["\nVideo processing completed!"] }
    | (Except.error e, written, n, tf) =>
      { result := Except.error e
        written := written
        frameCount := n
        totalFps := tf
        resources := finalResources
        prints := prints0 ++ ["An error occurred: " ++ pyErrMsg e] }

/-! ### Supporting lemmas -/

/-- Unfolding the clip applied by `calculate_label_size` to the
pre-clip font scale. -/
lemma calculate_label_size_eq_clip (bw bh fw fh mn mx : ℝ) :
    calculate_label_size bw bh fw fh mn mx =
      min (max (preClipFontScale bw bh fw fh mn mx) mn) mx := rfl

/-- The pre-clip font scale is monotone in the box area and bounded by the
value at ratio `hi` once `1 + ratio * 100 ≤ hi` holds. -/
lemma preClipFontScale_le (bw bh bw2 bh2 fw fh mn mx : ℝ)
    (hbw : 0 ≤ bw) (hbh : 0 ≤ bh) (hfw : 0 < fw) (hfh : 0 < fh) (hmm : mn ≤ mx)
    (harea : bw * bh ≤ bw2 * bh2) :
    preClipFontScale bw bh fw fh mn mx ≤ preClipFontScale bw2 bh2 fw fh mn mx := by
  unfold preClipFontScale
  have hden : (0:ℝ) < fw * fh := mul_pos hfw hfh
  have hr1 : (0:ℝ) ≤ (bw * bh) / (fw * fh) :=
    div_nonneg (mul_nonneg hbw hbh) hden.le
  have hrr : (bw * bh) / (fw * fh) ≤ (bw2 * bh2) / (fw * fh) :=
    (div_le_div_iff_of_pos_right hden).mpr harea
  have hlog : Real.log (1 + (bw * bh) / (fw * fh) * 100)
      ≤ Real.log (1 + (bw2 * bh2) / (fw * fh) * 100) :=
    Real.log_le_log (by nlinarith) (by nlinarith)
  have hnn : (0:ℝ) ≤ mx - mn := sub_nonneg.mpr hmm
  have hstep : Real.log (1 + (bw * bh) / (fw * fh) * 100) / 5 * (mx - mn)
      ≤ Real.log (1 + (bw2 * bh2) / (fw * fh) * 100) / 5 * (mx - mn) := by
    apply mul_le_mul_of_nonneg_right _ hnn
    linarith
  linarith

/-- Numeric fact used for the saturation bound: `ln 101 < 5`. -/
lemma log_101_lt_five : Real.log 101 < 5 := by
  have hexp : (101:ℝ) < Real.exp 5 := by
    have h2 : (2.7182818283:ℝ) ^ 5 ≤ Real.exp 1 ^ 5 :=
      pow_le_pow_left₀ (by norm_num) Real.exp_one_gt_d9.le 5
    have h3 : Real.exp 5 = Real.exp 1 ^ 5 := by
      rw [← Real.exp_nat_mul]
      norm_num
    calc (101:ℝ) < 2.7182818283 ^ 5 := by norm_num
      _ ≤ Real.exp 1 ^ 5 := h2
      _ = Real.exp 5 := h3.symm
  exact (Real.log_lt_iff_lt_exp (by norm_num)).mpr hexp

/-! ### C5: the label-scale contract -/

/-- C5: for nonnegative box dimensions, positive frame dimensions and
`min_scale ≤ max_scale`, `calculate_label_size` equals
`min_scale + (ln(1 + 100*ratio)/5)*(max_scale - min_scale)` clamped to
`[min_scale, max_scale]`; the result always lies in that interval, is
monotonically non-decreasing in the box area for a fixed frame, and is the
well-defined value `min_scale` (never an invalid value such as a NaN) at
`box_w = box_h = 0`: `calculate_label_size 0 0 w h 0.4 1.2 = 0.4`. -/
theorem calculate_label_size_spec (bw bh fw fh mn mx : ℝ)
    (hbw : 0 ≤ bw) (hbh : 0 ≤ bh) (hfw : 0 < fw) (hfh : 0 < fh) (hmm : mn ≤ mx) :
    calculate_label_size bw bh fw fh mn mx =
      min (max (mn + (Real.log (1 + (bw * bh) / (fw * fh) * 100) / 5) * (mx - mn)) mn) mx ∧
    mn ≤ calculate_label_size bw bh fw fh mn mx ∧
    calculate_label_size bw bh fw fh mn mx ≤ mx ∧
    (∀ bw2 bh2, 0 ≤ bw2 → 0 ≤ bh2 → bw * bh ≤ bw2 * bh2 →
      calculate_label_size bw bh fw fh mn mx ≤ calculate_label_size bw2 bh2 fw fh mn mx) ∧
    calculate_label_size 0 0 fw fh 0.4 1.2 = 0.4 := by
  refine ⟨rfl, ?_, ?_, ?_, ?_⟩
  · exact le_min (le_max_right _ _) hmm
  · exact min_le_right _ _
  · intro bw2 bh2 hbw2 hbh2 harea
    rw [calculate_label_size_eq_clip, calculate_label_size_eq_clip]
    exact min_le_min
      (max_le_max (preClipFontScale_le bw bh bw2 bh2 fw fh mn mx
        hbw hbh hfw hfh hmm harea) le_rfl) le_rfl
  · have hratio : (0:ℝ) * 0 / (fw * fh) = 0 := by
      rw [zero_mul, zero_div]
    unfold calculate_label_size npClip
    rw [hratio]
    norm_num [Real.log_one]

/-- Witness for C5 at the concrete input `(0, 0, 1, 1, 0.4, 1.2)`. -/
theorem calculate_label_size_spec_witness :
    calculate_label_size 0 0 1 1 0.4 1.2 = 0.4 :=
  (calculate_label_size_spec 0 0 1 1 0.4 1.2 le_rfl le_rfl one_pos one_pos
    (by norm_num)).2.2.2.2

/-! ### C10: the upper clamp is inactive for boxes within the frame -/

/-- C10: `calculate_label_size` clips the pre-clip font scale; whenever the
box area does not exceed the frame area, that pre-clip value is at most
`min_scale + (ln 101 / 5)*(max_scale - min_scale)`, the factor
`ln 101 / 5` is strictly below 1, and hence for `min_scale < max_scale`
the returned scale stays strictly below `max_scale` — the upper clamp can
only take effect for boxes larger than the whole frame. -/
theorem calculate_label_size_saturation (bw bh fw fh mn mx : ℝ)
    (hbw : 0 ≤ bw) (hbh : 0 ≤ bh) (hfw : 0 < fw) (hfh : 0 < fh)
    (harea : bw * bh ≤ fw * fh) (hmm : mn ≤ mx) :
    calculate_label_size bw bh fw fh mn mx =
      min (max (preClipFontScale bw bh fw fh mn mx) mn) mx ∧
    preClipFontScale bw bh fw fh mn mx ≤ mn + (Real.log 101 / 5) * (mx - mn) ∧
    Real.log 101 / 5 < 1 ∧
    (mn < mx → calculate_label_size bw bh fw fh mn mx < mx) := by
  have hden : (0:ℝ) < fw * fh := mul_pos hfw hfh
  have hr0 : (0:ℝ) ≤ (bw * bh) / (fw * fh) :=
    div_nonneg (mul_nonneg hbw hbh) hden.le
  have hr1 : (bw * bh) / (fw * fh) ≤ 1 := (div_le_one hden).mpr harea
  have hlog0 : (0:ℝ) ≤ Real.log (1 + (bw * bh) / (fw * fh) * 100) :=
    Real.log_nonneg (by nlinarith)
  have hlog : Real.log (1 + (bw * bh) / (fw * fh) * 100) ≤ Real.log 101 :=
    Real.log_le_log (by nlinarith) (by nlinarith)
  have hfrac : Real.log 101 / 5 < 1 := by
    have := log_101_lt_five
    linarith
  have hnn : (0:ℝ) ≤ mx - mn := sub_nonneg.mpr hmm
  refine ⟨rfl, ?_, hfrac, ?_⟩
  · unfold preClipFontScale
    have : Real.log (1 + (bw * bh) / (fw * fh) * 100) / 5 * (mx - mn)
        ≤ Real.log 101 / 5 * (mx - mn) :=
      mul_le_mul_of_nonneg_right (by linarith) hnn
    linarith
  · intro hlt
    have hpos : (0:ℝ) < mx - mn := sub_pos.mpr hlt
    have hpre : preClipFontScale bw bh fw fh mn mx < mx := by
      unfold preClipFontScale
      have h1 : Real.log (1 + (bw * bh) / (fw * fh) * 100) / 5 < 1 := by linarith
      have h2 : Real.log (1 + (bw * bh) / (fw * fh) * 100) / 5 * (mx - mn)
          < 1 * (mx - mn) := mul_lt_mul_of_pos_right h1 hpos
      linarith
    rw [calculate_label_size_eq_clip]
    exact lt_of_le_of_lt (min_le_left _ _)
      (max_lt hpre hlt)

/-- Witness for C10 at the concrete input `(1, 1, 2, 2, 0, 1)`: a box a
quarter of the frame area yields a scale strictly below the maximum. -/
theorem calculate_label_size_saturation_witness :
    calculate_label_size 1 1 2 2 0 1 < 1 :=
  (calculate_label_size_saturation 1 1 2 2 0 1 (by norm_num) (by norm_num)
    (by norm_num) (by norm_num) (by norm_num) (by norm_num)).2.2.2 (by norm_num)

/-! ### C6: palette determinism -/

/-- C6: palette generation is deterministic. `generate_color_palette` calls
`np.random.seed(42)` first, so its output does not depend on the ambient
RNG state at all: two invocations with the same `num_classes` — in
particular `num_classes = 91`, the notebook's call, with the code's fixed
seed 42 — produce identical class-id-to-RGB mappings, making class colors
stable across runs. -/
theorem generate_color_palette_deterministic (num_classes g1 g2 : ℕ) :
    generate_color_palette num_classes g1 = generate_color_palette num_classes g2 ∧
    generate_color_palette 91 g1 = generate_color_palette 91 g2 :=
  ⟨rfl, rfl⟩

/-! ### Palette lookup lemmas -/

/-- Labels at or beyond the end of the generated range are not keys of the
palette fragment. -/
lemma paletteGo_lookup_none :
    ∀ (k start s label : ℕ), start + k ≤ label →
      (paletteGo k start s).lookup label = none := by
  intro k
  induction k with
  | zero => intro start s label h; rfl
  | succ n ih =>
    intro start s label h
    simp only [paletteGo, List.lookup]
    have hne : (label == start) = false := by
      simp only [beq_eq_false_iff_ne, ne_eq]
      omega
    rw [hne]
    exact ih (start + 1) _ label (by omega)

/-- Labels inside the generated range are keys of the palette fragment. -/
lemma paletteGo_lookup_some :
    ∀ (k start s label : ℕ), start ≤ label → label < start + k →
      ∃ c, (paletteGo k start s).lookup label = some c := by
  intro k
  induction k with
  | zero => intro start s label h1 h2; omega
  | succ n ih =>
    intro start s label h1 h2
    simp only [paletteGo, List.lookup]
    by_cases heq : label = start
    · rw [heq]
      simp
    · have hne : (label == start) = false := by
        simp only [beq_eq_false_iff_ne, ne_eq]
        exact heq
      rw [hne]
      exact ih (start + 1) _ label (by omega) (by omega)

/-- Each of the three channels drawn by one modelled
`np.random.randint(0, 255, 3)` call is at most 254. -/
lemma npRandintTriple_le (s : ℕ) :
    (npRandintTriple s).1.1 ≤ 254 ∧ (npRandintTriple s).1.2.1 ≤ 254 ∧
      (npRandintTriple s).1.2.2 ≤ 254 := by
  simp only [npRandintTriple, npRandint255]
  omega

/-- Every channel of every color in any palette fragment lies in
`[0, 254]`, because each draw is a remainder modulo 255. -/
lemma paletteGo_channels_le :
    ∀ (k start s : ℕ), ∀ p ∈ paletteGo k start s,
      p.2.1 ≤ 254 ∧ p.2.2.1 ≤ 254 ∧ p.2.2.2 ≤ 254 := by
  intro k
  induction k with
  | zero => intro start s p hp; cases hp
  | succ n ih =>
    intro start s p hp
    simp only [paletteGo, List.mem_cons] at hp
    cases hp with
    | inl h =>
      subst h
      exact npRandintTriple_le s
    | inr h => exact ih (start + 1) _ p h

/-! ### C9: lookup fallback -/

/-- C9: for every class id that is not a key of the 91-class palette
(all ids at or above 91), `get_label_color` returns the default pure green
`(0, 255, 0)` rather than failing; for every recognized class id (below
91) it returns the color the palette maps that id to. -/
theorem get_label_color_default_or_mapped (label : ℕ) :
    (91 ≤ label → get_label_color label = (0, 255, 0)) ∧
    (label < 91 → ∃ c, colors.lookup label = some c ∧ get_label_color label = c) := by
  constructor
  · intro h
    unfold get_label_color colors generate_color_palette
    rw [paletteGo_lookup_none 91 0 (npSeed 42) label (by omega)]
    rfl
  · intro h
    obtain ⟨c, hc⟩ := paletteGo_lookup_some 91 0 (npSeed 42) label (Nat.zero_le _) (by omega)
    refine ⟨c, hc, ?_⟩
    unfold get_label_color
    have hcol : colors.lookup label = some c := hc
    rw [hcol]
    rfl

/-- Witness for C9: the class id 999 is not a key of the 91-class palette
and falls back to pure green. -/
theorem get_label_color_default_or_mapped_witness :
    get_label_color 999 = (0, 255, 0) :=
  (get_label_color_default_or_mapped 999).1 (by norm_num)

/-! ### C8: channel range of the palette colors -/

/-- Counterexample for C8 as stated: in the palette the notebook builds
(91 classes), every channel of every color is at most 254 — the value 255
is never drawn, because `np.random.randint(0, 255, 3)` excludes its upper
bound. So the channel range is not the inclusive `[0, 255]`. -/
theorem generate_color_palette_channel_255_never :
    ((generate_color_palette 91 0).all fun p =>
      decide (p.2.1 ≤ 254) && decide (p.2.2.1 ≤ 254) && decide (p.2.2.2 ≤ 254)) = true := by
  decide

/-- C8 (amended): for every `num_classes` and ambient RNG state, every
color produced by `generate_color_palette` is an RGB triple whose channel
values lie in the half-open integer range `[0, 255)`, i.e. each channel is
between 0 and 254 inclusive. -/
theorem generate_color_palette_channel_range (num_classes g : ℕ)
    (p : ℕ × (ℕ × ℕ × ℕ)) (hp : p ∈ generate_color_palette num_classes g) :
    p.2.1 ≤ 254 ∧ p.2.2.1 ≤ 254 ∧ p.2.2.2 ≤ 254 :=
  paletteGo_channels_le num_classes 0 (npSeed 42) p hp

/-- A concrete palette entry used by the C8 witness: the first entry of the
notebook's 91-class palette. -/
def wPaletteEntry : ℕ × (ℕ × ℕ × ℕ) := (generate_color_palette 91 0).headD (0, (0, 0, 0))

/-- Witness for C8 (amended) at the first entry of the 91-class palette. -/
theorem generate_color_palette_channel_range_witness :
    wPaletteEntry.2.1 ≤ 254 :=
  (generate_color_palette_channel_range 91 0 wPaletteEntry (by decide)).1

/-! ### Frame-loop lemmas -/

/-- Shape of a successful iteration body: the detector succeeded, the
elapsed time was nonzero, the written frame carries exactly the detections
that survived the strict threshold filter, and the stamped FPS is the
reciprocal of the elapsed time. -/
lemma processFrame_ok_shape (detect : Frame → Except PyErr (List Detection))
    (threshold elapsed : ℚ) (f : Frame) (rf : RenderedFrame) (fps : ℚ)
    (h : processFrame detect threshold elapsed f = Except.ok (rf, fps)) :
    ∃ results, detect f = Except.ok results ∧ elapsed ≠ 0 ∧
      rf = ⟨f, results.filter fun d => decide (threshold < d.score), 1 / elapsed⟩ ∧
      fps = 1 / elapsed := by
  rcases hd : detect f with e | results
  · simp only [processFrame, hd] at h
    exact Except.noConfusion h
  · simp only [processFrame, hd] at h
    by_cases hz : elapsed = 0
    · rw [if_pos hz] at h
      cases h
    · rw [if_neg hz] at h
      have h2 := Except.ok.inj h
      have h3 : rf = ⟨f, results.filter fun d => decide (threshold < d.score), 1 / elapsed⟩ :=
        (congrArg Prod.fst h2).symm
      have h4 : fps = 1 / elapsed := (congrArg Prod.snd h2).symm
      exact ⟨results, rfl, hz, h3, h4⟩

/-- Every frame the loop writes carries exactly the detections of its
source frame that pass the strict filter (given what the detector, a
function, returns for that frame). -/
lemma frameLoop_written_sound (detect : Frame → Except PyErr (List Detection))
    (threshold : ℚ) (elapsed : ℕ → ℚ) :
    ∀ (reads : List ReadResult) (fc : ℕ) (tf : ℚ) (acc : List RenderedFrame),
      (∀ rf ∈ acc, ∀ results, detect rf.base = Except.ok results →
        rf.drawn = results.filter fun d => decide (threshold < d.score)) →
      ∀ rf ∈ (frameLoop detect threshold elapsed reads fc tf acc).2.1,
        ∀ results, detect rf.base = Except.ok results →
          rf.drawn = results.filter fun d => decide (threshold < d.score) := by
  intro reads
  induction reads with
  | nil =>
    intro fc tf acc hacc rf hrf
    simp only [frameLoop, List.mem_reverse] at hrf
    exact hacc rf hrf
  | cons hd rest ih =>
    intro fc tf acc hacc rf hrf
    cases hd with
    | eof =>
      simp only [frameLoop, List.mem_reverse] at hrf
      exact hacc rf hrf
    | frame f =>
      rcases hpf : processFrame detect threshold (elapsed fc) f with e | pair
      · simp only [frameLoop, hpf, List.mem_reverse] at hrf
        exact hacc rf hrf
      · obtain ⟨rf2, fps⟩ := pair
        simp only [frameLoop, hpf] at hrf
        obtain ⟨results2, hdet2, hz, hrf2, hfps⟩ :=
          processFrame_ok_shape detect threshold (elapsed fc) f rf2 fps hpf
        intro results hdet
        refine ih (fc + 1) (tf + fps) (rf2 :: acc) ?_ rf hrf results hdet
        intro rf3 hrf3 results3 hdet3
        rcases List.mem_cons.mp hrf3 with h3 | h3
        · subst h3
          rw [hrf2] at hdet3 ⊢
          rw [hdet2] at hdet3
          have heq : results2 = results3 := Except.ok.inj hdet3
          rw [← heq]
        · exact hacc rf3 h3 results3 hdet3

/-- Loop accounting: the final `frame_count` exceeds the initial one by the
number of newly written frames, and the final `total_fps` exceeds the
initial one by the sum of the FPS values stamped on the newly written
frames. -/
lemma frameLoop_count_sum (detect : Frame → Except PyErr (List Detection))
    (threshold : ℚ) (elapsed : ℕ → ℚ) :
    ∀ (reads : List ReadResult) (fc : ℕ) (tf : ℚ) (acc : List RenderedFrame),
      (frameLoop detect threshold elapsed reads fc tf acc).2.2.1 + acc.length
        = fc + (frameLoop detect threshold elapsed reads fc tf acc).2.1.length ∧
      (frameLoop detect threshold elapsed reads fc tf acc).2.2.2
          + (acc.map RenderedFrame.fpsShown).sum
        = tf + ((frameLoop detect threshold elapsed reads fc tf acc).2.1.map
            RenderedFrame.fpsShown).sum := by
  intro reads
  induction reads with
  | nil =>
    intro fc tf acc
    constructor <;> simp [frameLoop, List.map_reverse, List.sum_reverse]
  | cons hd rest ih =>
    intro fc tf acc
    cases hd with
    | eof => constructor <;> simp [frameLoop, List.map_reverse, List.sum_reverse]
    | frame f =>
      rcases hpf : processFrame detect threshold (elapsed fc) f with e | pair
      · constructor <;> simp [frameLoop, hpf, List.map_reverse, List.sum_reverse]
      · obtain ⟨rf2, fps⟩ := pair
        obtain ⟨results2, hdet2, hz, hrf2, hfps⟩ :=
          processFrame_ok_shape detect threshold (elapsed fc) f rf2 fps hpf
        have hih := ih (fc + 1) (tf + fps) (rf2 :: acc)
        have hffs : rf2.fpsShown = fps := by rw [hrf2, hfps]
        constructor
        · have h1 := hih.1
          simp only [List.length_cons] at h1
          simp only [frameLoop, hpf]
          omega
        · have h2 := hih.2
          simp only [List.map_cons, List.sum_cons, hffs] at h2
          simp only [frameLoop, hpf]
          linarith

/-! ### C1: strict-threshold rendering -/

/-- C1: for every frame written by `process_video`, a detection returned by
the detector for that frame is rendered onto it iff its confidence is
strictly greater than the threshold; in particular a detection whose
confidence equals the threshold is not rendered. -/
theorem rendered_iff_strictly_above_threshold
    (detect : Frame → Except PyErr (List Detection)) (device : String)
    (cap : VideoCapture) (out : VideoWriter) (elapsed : ℕ → ℚ) (threshold : ℚ)
    (rf : RenderedFrame)
    (hrf : rf ∈ (process_video detect device cap out elapsed threshold).written)
    (results : List Detection) (hdet : detect rf.base = Except.ok results) :
    (∀ d, d ∈ rf.drawn ↔ d ∈ results ∧ threshold < d.score) ∧
    ∀ d ∈ results, d.score = threshold → d ∉ rf.drawn := by
  have hmain : rf.drawn = results.filter fun d => decide (threshold < d.score) := by
    by_cases hopen : cap.isOpened = false
    · simp [process_video, hopen] at hrf
    · rcases hloop : frameLoop detect threshold elapsed cap.reads 0 0 [] with ⟨r, w, n, tf⟩
      have hw : rf ∈ w := by
        cases r <;> simp [process_video, hopen, hloop] at hrf <;> exact hrf
      exact frameLoop_written_sound detect threshold elapsed cap.reads 0 0 []
        (by intro rf2 h2; cases h2) rf (by rw [hloop]; exact hw) results hdet
  constructor
  · intro d
    rw [hmain, List.mem_filter]
    simp
  · intro d hd hsc
    rw [hmain, List.mem_filter]
    simp [hsc]

/-- Concrete detections for the C1 witness: one at confidence 0.95 and one
exactly at the 0.9 boundary. -/
def wDetections : List Detection :=
  [⟨1, mkRat 95 100, (0, 0, 10, 10)⟩, ⟨2, mkRat 9 10, (0, 0, 5, 5)⟩]

/-- A detector returning `wDetections` for every frame. -/
def wDetect : Frame → Except PyErr (List Detection) := fun _ => Except.ok wDetections

/-- A one-frame opened capture. -/
def wCapOne : VideoCapture := ⟨true, 640, 480, 30, 1, [ReadResult.frame 0]⟩

/-- The frame `process_video` writes in the C1 witness run: only the
0.95-confidence detection is drawn, and the stamped FPS is `1/1`. -/
def wRendered : RenderedFrame := ⟨0, [⟨1, mkRat 95 100, (0, 0, 10, 10)⟩], 1 / 1⟩

/-- Witness for C1: in a concrete run at threshold 0.9, the detection at
confidence 0.95 is rendered iff it exceeds the threshold, and the one at
exactly 0.9 is absent from the written frame. -/
theorem rendered_iff_strictly_above_threshold_witness :
    ((⟨1, mkRat 95 100, (0, 0, 10, 10)⟩ : Detection) ∈ wRendered.drawn ↔
      (⟨1, mkRat 95 100, (0, 0, 10, 10)⟩ : Detection) ∈ wDetections ∧
        mkRat 9 10 < mkRat 95 100) ∧
    ((⟨2, mkRat 9 10, (0, 0, 5, 5)⟩ : Detection) ∉ wRendered.drawn) :=
  ⟨(rendered_iff_strictly_above_threshold wDetect "mps" wCapOne ⟨true⟩ (fun _ => 1)
      (mkRat 9 10) wRendered
      (by rw [show (process_video wDetect "mps" wCapOne ⟨true⟩ (fun _ => 1)
          (mkRat 9 10)).written = [wRendered] from rfl]
          exact List.mem_singleton_self wRendered)
      wDetections rfl).1 ⟨1, mkRat 95 100, (0, 0, 10, 10)⟩,
   (rendered_iff_strictly_above_threshold wDetect "mps" wCapOne ⟨true⟩ (fun _ => 1)
      (mkRat 9 10) wRendered
      (by rw [show (process_video wDetect "mps" wCapOne ⟨true⟩ (fun _ => 1)
          (mkRat 9 10)).written = [wRendered] from rfl]
          exact List.mem_singleton_self wRendered)
      wDetections rfl).2 ⟨2, mkRat 9 10, (0, 0, 5, 5)⟩ (by decide) rfl⟩

/-! ### C2: the finally block always runs and the error is re-raised -/

/-- C2: whenever the input capture opened (so the per-frame loop is
entered), `process_video` ends with every resource of the `finally` block
released — progress bar closed, capture and writer released, windows
destroyed, accelerator cache emptied, model moved back to cpu — on every
exit path, and when the loop raised an exception that same exception is
re-raised to the caller after cleanup. -/
theorem finalize_always_runs_and_reraises
    (detect : Frame → Except PyErr (List Detection)) (device : String)
    (cap : VideoCapture) (out : VideoWriter) (elapsed : ℕ → ℚ) (threshold : ℚ)
    (hopen : cap.isOpened = true) :
    (process_video detect device cap out elapsed threshold).resources = finalResources ∧
    ∀ e, (frameLoop detect threshold elapsed cap.reads 0 0 []).1 = Except.error e →
      (process_video detect device cap out elapsed threshold).result = Except.error e := by
  rcases hloop : frameLoop detect threshold elapsed cap.reads 0 0 [] with ⟨r, w, n, tf⟩
  cases r with
  | ok u =>
    constructor
    · simp [process_video, hopen, hloop]
    · intro e he
      simp at he
  | error e2 =>
    constructor
    · simp [process_video, hopen, hloop]
    · intro e he
      simp at he
      subst he
      simp [process_video, hopen, hloop]

/-- A detector that raises on every frame. -/
def wFailDetect : Frame → Except PyErr (List Detection) :=
  fun _ => Except.error (PyErr.other "boom")

/-- A two-frame opened capture. -/
def wCapTwo : VideoCapture :=
  ⟨true, 640, 480, 30, 2, [ReadResult.frame 0, ReadResult.frame 1]⟩

/-- Witness for C2: a run whose detector raises on the first frame still
releases every resource and re-raises the original error. -/
theorem finalize_always_runs_and_reraises_witness :
    (process_video wFailDetect "mps" wCapTwo ⟨true⟩ (fun _ => 1) (9/10)).resources
        = finalResources ∧
    (process_video wFailDetect "mps" wCapTwo ⟨true⟩ (fun _ => 1) (9/10)).result
        = Except.error (PyErr.other "boom") :=
  ⟨(finalize_always_runs_and_reraises wFailDetect "mps" wCapTwo ⟨true⟩ (fun _ => 1)
      (9/10) rfl).1,
   (finalize_always_runs_and_reraises wFailDetect "mps" wCapTwo ⟨true⟩ (fun _ => 1)
      (9/10) rfl).2 (PyErr.other "boom") rfl⟩

/-! ### C3: the FPS computation is not guarded -/

/-- A detector returning no detections for every frame. -/
def wEmptyDetect : Frame → Except PyErr (List Detection) := fun _ => Except.ok []

/-- Counterexample for C3 as stated: with zero elapsed time on the single
frame, `process_video` does not guard or clamp — the division `1 / 0`
raises `ZeroDivisionError` and that error propagates to the caller as a
fatal error. -/
theorem fps_division_by_zero_propagates :
    (process_video wEmptyDetect "mps" wCapOne ⟨true⟩ (fun _ => 0) (9/10)).result
      = Except.error PyErr.zeroDivisionError := rfl

/-- C3 (amended): per frame the code computes the instantaneous FPS as
`1 / elapsed` with no guard whatsoever: for nonzero elapsed time the
iteration succeeds with exactly that reciprocal (however large), and for
zero elapsed time it raises `ZeroDivisionError`, which propagates as a
fatal error. -/
theorem fps_reciprocal_unguarded
    (detect : Frame → Except PyErr (List Detection)) (threshold elapsed : ℚ)
    (f : Frame) (results : List Detection)
    (hdet : detect f = Except.ok results) :
    (elapsed ≠ 0 → processFrame detect threshold elapsed f =
      Except.ok (⟨f, results.filter fun d => decide (threshold < d.score), 1 / elapsed⟩,
        1 / elapsed)) ∧
    (elapsed = 0 →
      processFrame detect threshold elapsed f = Except.error PyErr.zeroDivisionError) := by
  constructor
  · intro hz
    simp only [processFrame, hdet]
    rw [if_neg hz]
  · intro hz
    simp only [processFrame, hdet]
    rw [if_pos hz]

/-- Witness for C3 (amended) at elapsed time 2: the stamped FPS is 1/2. -/
theorem fps_reciprocal_unguarded_witness :
    processFrame wEmptyDetect (9/10) 2 0 = Except.ok (⟨0, [], 1/2⟩, 1/2) :=
  (fps_reciprocal_unguarded wEmptyDetect (9/10) 2 0 [] rfl).1 (by norm_num)

/-! ### C4: which open failures are detected -/

/-- An opened capture with zero frames. -/
def wZeroCap : VideoCapture := ⟨true, 640, 480, 30, 0, []⟩

/-- Counterexample for C4 as stated: an input that opens but has zero
frames, together with an output sink that failed to open, produces no
OpenFailure at all — `process_video` completes normally having processed
zero frames. -/
theorem zero_frames_and_bad_sink_not_detected :
    (process_video wEmptyDetect "mps" wZeroCap ⟨false⟩ (fun _ => 1) (9/10)).result
        = Except.ok () ∧
    (process_video wEmptyDetect "mps" wZeroCap ⟨false⟩ (fun _ => 1) (9/10)).frameCount
        = 0 :=
  ⟨rfl, rfl⟩

/-- C4 (amended): before the loop starts, `process_video` fails — with
`ValueError("Error opening video file")`, nothing written and no frame
processed — exactly when the input source cannot be opened; a source with
zero frames is not treated as a failure, and the output sink's open state
is never inspected: the entire result is independent of it. -/
theorem open_failure_only_for_unopened_input
    (detect : Frame → Except PyErr (List Detection)) (device : String)
    (cap : VideoCapture) (out : VideoWriter) (elapsed : ℕ → ℚ) (threshold : ℚ) :
    (cap.isOpened = false →
      (process_video detect device cap out elapsed threshold).result
          = Except.error (PyErr.valueError "Error opening video file") ∧
      (process_video detect device cap out elapsed threshold).written = [] ∧
      (process_video detect device cap out elapsed threshold).frameCount = 0) ∧
    ∀ out2 : VideoWriter,
      process_video detect device cap out elapsed threshold
        = process_video detect device cap out2 elapsed threshold := by
  constructor
  · intro hclosed
    refine ⟨?_, ?_, ?_⟩ <;> simp [process_video, hclosed]
  · intro out2
    rfl

/-- An unopened capture (nonexistent input path). -/
def wClosedCap : VideoCapture := ⟨false, 0, 0, 0, 0, []⟩

/-- Witness for C4 (amended): opening a nonexistent input raises the
ValueError before any frame is read. -/
theorem open_failure_only_for_unopened_input_witness :
    (process_video wEmptyDetect "cpu" wClosedCap ⟨true⟩ (fun _ => 1) (9/10)).result
      = Except.error (PyErr.valueError "Error opening video file") :=
  ((open_failure_only_for_unopened_input wEmptyDetect "cpu" wClosedCap ⟨true⟩
    (fun _ => 1) (9/10)).1 rfl).1

/-! ### C7: what is reported on completion -/

/-- Counterexample for C7 as stated: a run that completes its single frame
successfully prints only the device line and the fixed completion message —
the accumulated frame count (1) and FPS total appear in no printed
output. -/
theorem completion_prints_lack_stats :
    (process_video wEmptyDetect "mps" wCapOne ⟨true⟩ (fun _ => 1) (9/10)).prints
        = ["Using device: mps", "\nVideo processing completed!"] ∧
    (process_video wEmptyDetect "mps" wCapOne ⟨true⟩ (fun _ => 1) (9/10)).frameCount
        = 1 ∧
    (process_video wEmptyDetect "mps" wCapOne ⟨true⟩ (fun _ => 1) (9/10)).totalFps
        = 0 + 1 / 1 :=
  ⟨rfl, rfl, rfl⟩

/-- C7 (amended): when the frame loop completes successfully,
`process_video` prints only the device line and the fixed string
"Video processing completed!"; it does accumulate the summary data —
`frame_count` equals the number of frames written and `total_fps` equals
the sum of the per-frame FPS values — but reports neither the frame count
nor the mean FPS. -/
theorem completion_reports_no_summary
    (detect : Frame → Except PyErr (List Detection)) (device : String)
    (cap : VideoCapture) (out : VideoWriter) (elapsed : ℕ → ℚ) (threshold : ℚ)
    (hopen : cap.isOpened = true)
    (hok : (frameLoop detect threshold elapsed cap.reads 0 0 []).1 = Except.ok ()) :
    (process_video detect device cap out elapsed threshold).prints
        = ["Using device: " ++ device, "\nVideo processing completed!"] ∧
    (process_video detect device cap out elapsed threshold).frameCount
        = (process_video detect device cap out elapsed threshold).written.length ∧
    (process_video detect device cap out elapsed threshold).totalFps
        = ((process_video detect device cap out elapsed threshold).written.map
            RenderedFrame.fpsShown).sum := by
  have hcs := frameLoop_count_sum detect threshold elapsed cap.reads 0 0 []
  rcases hloop : frameLoop detect threshold elapsed cap.reads 0 0 [] with ⟨r, w, n, tf⟩
  rw [hloop] at hcs
  cases r with
  | error e =>
    rw [hloop] at hok
    simp at hok
  | ok u =>
    refine ⟨?_, ?_, ?_⟩ <;> simp [process_video, hopen, hloop]
    · have h1 := hcs.1
      simp at h1
      omega
    · have h2 := hcs.2
      simp at h2
      linarith

/-- Witness for C7 (amended) on a concrete successful one-frame run. -/
theorem completion_reports_no_summary_witness :
    (process_video wEmptyDetect "mps" wCapOne ⟨true⟩ (fun _ => 1) (9/10)).prints
        = ["Using device: " ++ "mps", "\nVideo processing completed!"] :=
  (completion_reports_no_summary wEmptyDetect "mps" wCapOne ⟨true⟩ (fun _ => 1)
    (9/10) rfl rfl).1

end DetrVideo
